import Mathlib

/-!
Verification development for the keyed process supervisor of the
vnstat-rs-api repository (src/task_handle.rs, src/task_manager.rs,
src/service/vnstat_service.rs).

The supervisor is embedded as a small-step transition system on an explicit
state record.  Each section of the Rust code that runs under the single
`Mutex<State>` lock is one atomic step (the lock guarantees this); the work
done outside the lock (the actual spawn, the broadcast-receiver creation,
the forwarding task's exit cleanup) is a separate step, so that arbitrary
interleavings between concurrent subscribe / unsubscribe calls and the
forwarding tasks are represented.
-/

namespace VnstatApi

/-- Message type from task_handle.rs lines 14-20.  The source enum declares
exactly these three constructors: `Data(Output)`, `Error(Output)`, `Eof`. -/
inductive TaskMessage where
  | Data (line : String)
  | Error (text : String)
  | Eof
  deriving DecidableEq

/-- A spawn that was decided (token stored, `need_spawn` set) inside the
locked section of `TaskHandle::subscribe` but whose `spawn_process` call has
not yet run.  In the Rust code this window is the region between releasing
the mutex at line 69 and the `spawn_process` call at line 72. -/
structure PendingSpawn where
  token : Nat
  cmd : List String
  deriving DecidableEq

/-- State of one key's supervisor, together with the observable history
needed by the claims.  Fields `refCount` and `cancelToken` are the `State`
struct of task_handle.rs lines 24-30 (`ref_count`, `cancel_token`);
`refCount` is carried as an integer so that non-negativity is a theorem
rather than a typing artifact.  The remaining fields record the execution
environment: `pending` the decided-but-not-yet-executed spawns, `tasks` the
tokens of live forwarding tasks (each owning one running child process),
`cancelled` the tokens on which `cancel()` has been called, `nextToken` a
freshness counter, `receivers` the number of live broadcast receivers,
`sent` the messages accepted by the broadcast channel, and
`unsubZeroWarns` the number of times the `ref_count == 0` warning of
`unsubscribe` fired. -/
structure SupState where
  refCount : Int
  cancelToken : Option Nat
  pending : List PendingSpawn
  tasks : List Nat
  cancelled : List Nat
  nextToken : Nat
  receivers : Nat
  sent : List TaskMessage
  unsubZeroWarns : Nat
  deriving DecidableEq

/-- Broadcast a message (TaskHandle::broadcast, task_handle.rs lines
190-194, with tokio broadcast semantics): with no active receivers the send
fails (only a warning is logged) and the message is not stored. -/
def broadcastSend (st : SupState) (msg : TaskMessage) : SupState :=
  if st.receivers = 0 then st
  else { st with sent := st.sent ++ [msg] }

/-- Locked section of `TaskHandle::subscribe` (task_handle.rs lines 59-69):
increment `ref_count`; if the post-increment count is 1 and no token is
stored, create and store a fresh token and record the spawn decision.
Returns the new state and the decided token (the `need_spawn` value). -/
def subscribeLock (cmd : List String) (st : SupState) : SupState × Option Nat :=
  let st1 := { st with refCount := st.refCount + 1 }
  if st1.refCount = 1 ∧ st1.cancelToken = none then
    ({ st1 with
        cancelToken := some st1.nextToken,
        pending := st1.pending ++ [⟨st1.nextToken, cmd⟩],
        nextToken := st1.nextToken + 1 },
      some st1.nextToken)
  else (st1, none)

/-- Result of a successful process spawn: `cmd[0]` is the program, the rest
are the arguments (task_handle.rs lines 126-127). -/
structure SpawnedChild where
  program : String
  args : List String
  deriving DecidableEq

/-- Embedding of `TaskHandle::spawn_process` up to the creation of the
forwarding task (task_handle.rs lines 121-135): an empty command is
rejected before `cmd[0]` is read; otherwise the OS spawn either succeeds
(`osOk = true`) or fails with an error.  The OS outcome is a parameter
because it is decided by the environment. -/
def spawn_process (cmd : List String) (osOk : Bool) : Except String SpawnedChild :=
  if h : cmd = [] then
    Except.error ("spawn_process called with empty cmd, skipping spawn.")
  else
    let program := cmd.head h
    let args := cmd.tail
    if osOk then Except.ok ⟨program, args⟩
    else Except.error ("Failed to spawn child process: " ++ program)

/-- Execution of a decided spawn, together with the caller's failure
handling in `TaskHandle::subscribe` (task_handle.rs lines 71-85): on
success the forwarding task (owning the child process) becomes live; on
failure `Error("Spawn task failed")` is broadcast and the stored token is
rolled back to `None`. -/
def spawnResolve (t : Nat) (osOk : Bool) (st : SupState) : SupState :=
  match st.pending.find? (fun p => p.token == t) with
  | none => st
  | some p =>
    let st1 := { st with pending := st.pending.filter (fun q => q.token != t) }
    match spawn_process p.cmd osOk with
    | Except.ok _ => { st1 with tasks := st1.tasks ++ [t] }
    | Except.error _ =>
      let st2 := broadcastSend st1 (TaskMessage.Error ("Spawn task failed"))
      { st2 with cancelToken := none }

/-- Final statement of `TaskHandle::subscribe` (task_handle.rs line 87):
`self.tx.subscribe()` creates the caller's broadcast receiver.  A receiver
observes exactly the messages sent after its creation, so its start index
is the current length of `sent`. -/
def subscribeRecv (st : SupState) : SupState × Nat :=
  ({ st with receivers := st.receivers + 1 }, st.sent.length)

/-- One whole `TaskHandle::subscribe` call run without interleaving (the
call body is sequential within one task): locked section, then — when a
spawn was decided — the spawn and its failure handling, then the receiver
creation.  Returns the state, the receiver's start index into `sent`, and
whether a spawn was attempted by this call. -/
def subscribe (cmd : List String) (osOk : Bool) (st : SupState) :
    SupState × Nat × Bool :=
  match subscribeLock cmd st with
  | (st1, some t) =>
    let st2 := spawnResolve t osOk st1
    ((subscribeRecv st2).1, (subscribeRecv st2).2, true)
  | (st1, none) =>
    ((subscribeRecv st1).1, (subscribeRecv st1).2, false)

/-- Embedding of `TaskHandle::unsubscribe` (task_handle.rs lines 94-114):
with `ref_count == 0` only a warning is logged; otherwise the count is
decremented and, on reaching 0, the stored token (if any) is taken and
cancelled.  The cancel happens outside the lock but still inside this call,
so it is part of the same step. -/
def unsubscribe (st : SupState) : SupState :=
  if st.refCount = 0 then
    { st with unsubZeroWarns := st.unsubZeroWarns + 1 }
  else
    let st1 := { st with refCount := st.refCount - 1 }
    if st1.refCount = 0 then
      match st1.cancelToken with
      | some t =>
        { st1 with cancelToken := none, cancelled := st1.cancelled ++ [t] }
      | none => st1
    else st1

/-- Ways the forwarding task's select loop terminates (task_handle.rs lines
150-177): the cancellation branch (which kills the child), end of stream,
or a read error. -/
inductive ExitReason where
  | killed
  | eofExit
  | readErr
  deriving DecidableEq

/-- Exit of the forwarding task owned by token `t` (task_handle.rs lines
148-185).  The `killed` reason fires only once the token has been
cancelled (the `cancelled()` branch of the select); `eofExit` broadcasts
`Eof`, `readErr` broadcasts an `Error`.  In every case the final cleanup
sets the supervisor's stored `cancel_token` to `None` unconditionally
(lines 183-184) — it does not check that the stored token is still the one
this task was spawned with. -/
def taskExit (t : Nat) (r : ExitReason) (st : SupState) : SupState :=
  if t ∈ st.tasks ∧ (r = ExitReason.killed → t ∈ st.cancelled) then
    let st1 :=
      match r with
      | ExitReason.killed => st
      | ExitReason.eofExit => broadcastSend st TaskMessage.Eof
      | ExitReason.readErr =>
        broadcastSend st (TaskMessage.Error ("Failed to read line from process"))
    { st1 with tasks := st1.tasks.filter (fun u => u != t), cancelToken := none }
  else st

/-- Fresh supervisor state (TaskHandle::new, task_handle.rs lines 39-45):
count 0, no token, no process, an unused channel. -/
def initState : SupState :=
  { refCount := 0, cancelToken := none, pending := [], tasks := [],
    cancelled := [], nextToken := 0, receivers := 0, sent := [],
    unsubZeroWarns := 0 }

/-- One atomic step of the supervisor system: a subscribe locked section, a
decided spawn resolving, a receiver creation, an unsubscribe call, or a
forwarding-task exit.  Steps of distinct in-flight calls may interleave
arbitrarily. -/
inductive Step : SupState → SupState → Prop where
  | subLock (cmd : List String) (st : SupState) : Step st (subscribeLock cmd st).1
  | spawn (t : Nat) (osOk : Bool) (st : SupState) : Step st (spawnResolve t osOk st)
  | recv (st : SupState) : Step st (subscribeRecv st).1
  | unsub (st : SupState) : Step st (unsubscribe st)
  | taskDone (t : Nat) (r : ExitReason) (st : SupState) : Step st (taskExit t r st)

/-- Reachability of a supervisor state from the fresh state by any
interleaving of steps. -/
def Reachable (st : SupState) : Prop :=
  Relation.ReflTransGen Step initState st

/-- Command of the spec's running example (§8). -/
def demoCmd : List String := ["mon", "-i", "eth0", "-live"]

/-- Trace state: one subscriber's locked section ran (count 1, token 0
stored, spawn decided). -/
def s1 : SupState := (subscribeLock demoCmd initState).1

/-- Trace state: the decided spawn succeeded (process of token 0 live). -/
def s2 : SupState := spawnResolve 0 true s1

/-- Trace state: the subscriber's receiver was created. -/
def s3 : SupState := (subscribeRecv s2).1

/-- Trace state: the subscriber unsubscribed (count 1 to 0, token 0 taken
and cancelled) while the forwarding task of token 0 has not yet reacted:
its child process is still running. -/
def s4 : SupState := unsubscribe s3

/-- Trace state: a new subscriber's locked section ran before the old
process was killed (count 0 to 1, fresh token 1 stored, spawn decided). -/
def s5 : SupState := (subscribeLock demoCmd s4).1

/-- Trace state: the new spawn succeeded — processes of tokens 0 and 1 are
now both live. -/
def s6 : SupState := spawnResolve 1 true s5

/-- Trace state: the forwarding task of cancelled token 0 killed its
process and exited, clearing the stored token unconditionally — removing
fresh token 1 from the state while its process is still running. -/
def s7 : SupState := taskExit 0 ExitReason.killed s6

theorem reach_s1 : Reachable s1 :=
  Relation.ReflTransGen.single (Step.subLock demoCmd initState)

theorem reach_s2 : Reachable s2 :=
  Relation.ReflTransGen.tail reach_s1 (Step.spawn 0 true s1)

theorem reach_s3 : Reachable s3 :=
  Relation.ReflTransGen.tail reach_s2 (Step.recv s2)

theorem reach_s4 : Reachable s4 :=
  Relation.ReflTransGen.tail reach_s3 (Step.unsub s3)

theorem reach_s5 : Reachable s5 :=
  Relation.ReflTransGen.tail reach_s4 (Step.subLock demoCmd s4)

theorem reach_s6 : Reachable s6 :=
  Relation.ReflTransGen.tail reach_s5 (Step.spawn 1 true s5)

theorem reach_s7 : Reachable s7 :=
  Relation.ReflTransGen.tail reach_s6 (Step.taskDone 0 ExitReason.killed s6)

/-- Characterization of the locked section when it observes a
first-subscriber transition with no stored token: the fresh token is
stored, the spawn is recorded, and the decision is returned. -/
theorem subscribeLock_pos (cmd : List String) (st : SupState)
    (h0 : st.refCount = 0) (hn : st.cancelToken = none) :
    subscribeLock cmd st =
      ({ st with refCount := st.refCount + 1,
                 cancelToken := some st.nextToken,
                 pending := st.pending ++ [⟨st.nextToken, cmd⟩],
                 nextToken := st.nextToken + 1 }, some st.nextToken) := by
  simp [subscribeLock, h0, hn]

/-- Characterization of the locked section in every other situation: only
the count changes and no spawn is decided. -/
theorem subscribeLock_neg (cmd : List String) (st : SupState)
    (h : ¬(st.refCount = 0 ∧ st.cancelToken = none)) :
    subscribeLock cmd st = ({ st with refCount := st.refCount + 1 }, none) := by
  unfold subscribeLock
  rw [if_neg]
  intro hc
  refine h ⟨?_, hc.2⟩
  have h1 := hc.1
  simp at h1
  omega

/-- A subscribe locked section that decided to spawn leaves the decided
token stored in the state. -/
theorem subscribeLock_token_of_decided (cmd : List String) (st : SupState)
    (t : Nat) (h : (subscribeLock cmd st).2 = some t) :
    ((subscribeLock cmd st).1).cancelToken = some t := by
  by_cases hc : st.refCount = 0 ∧ st.cancelToken = none
  · rw [subscribeLock_pos cmd st hc.1 hc.2] at h ⊢
    exact h
  · rw [subscribeLock_neg cmd st hc] at h
    exact absurd h (by simp)

/-- A subscribe locked section that finds a token already stored never
decides to spawn. -/
theorem subscribeLock_no_decision (cmd : List String) (st : SupState)
    (t : Nat) (h : st.cancelToken = some t) :
    (subscribeLock cmd st).2 = none := by
  rw [subscribeLock_neg cmd st (by simp [h])]

/-- C1: counterexample.  The claim that at any instant at most one child
process is running for a key fails on the code: state s6 is reachable — by
a subscribe (spawning the process of token 0), an unsubscribe (which takes
and cancels token 0 but does not wait for the kill), and a second subscribe
whose spawn succeeds — and in s6 the forwarding tasks of tokens 0 and 1,
each owning a running child process, are simultaneously live, the first
cancelled but not yet killed. -/
theorem c1_counterexample :
    Reachable s6 ∧ s6.tasks = [0, 1] ∧ s6.cancelled = [0] :=
  ⟨reach_s6, by decide, by decide⟩

/-- C1 (amended): two concurrent subscribe calls that both observe a
first-subscriber transition for the same key never both spawn — the mutex
makes (increment, decide-to-spawn, store token) one atomic section, so if
one locked section decides to spawn, the immediately following locked
section finds the token stored and does not decide. -/
theorem c1_amended (st : SupState) (cmdA cmdB : List String) (t : Nat)
    (h : (subscribeLock cmdA st).2 = some t) :
    (subscribeLock cmdB (subscribeLock cmdA st).1).2 = none :=
  subscribeLock_no_decision cmdB _ t (subscribeLock_token_of_decided cmdA st t h)

/-- C1 amended, witnessed at the fresh supervisor state. -/
theorem c1_amended_witness :
    (subscribeLock demoCmd initState).2 = some 0 ∧
    (subscribeLock demoCmd (subscribeLock demoCmd initState).1).2 = none :=
  ⟨by decide, c1_amended initState demoCmd demoCmd 0 (by decide)⟩

/-- C2: evaluation at the failing input.  A first subscribe with command
["/nonexistent"] whose spawn fails: the `Error("Spawn task failed")`
broadcast happens before `self.tx.subscribe()` creates the caller's
receiver — and the send is dropped because no receiver exists — so the
channel history is empty and the triggering subscriber (whose receiver
starts at index 0 of an empty history) can never receive the error, contra
the claim.  The token is rolled back (`cancelToken = none`) but the count
stays 1, so a retry subscribe spawns only after the failed subscriber has
unsubscribed: retrying after the unsubscribe spawns the process of token 1,
while retrying before it spawns nothing. -/
theorem c2_spawn_failure_eval :
    (subscribe ["/nonexistent"] false initState).1.sent = [] ∧
    (subscribe ["/nonexistent"] false initState).2.1 = 0 ∧
    (subscribe ["/nonexistent"] false initState).2.2 = true ∧
    (subscribe ["/nonexistent"] false initState).1.cancelToken = none ∧
    (subscribe ["/nonexistent"] false initState).1.refCount = 1 ∧
    (subscribe demoCmd true
      (unsubscribe (subscribe ["/nonexistent"] false initState).1)).1.tasks = [1] ∧
    (subscribe demoCmd true (subscribe ["/nonexistent"] false initState).1).2.2
      = false :=
  ⟨rfl, rfl, rfl, rfl, rfl, by decide, by decide⟩

/-- Broadcasting a message touches only the channel history. -/
theorem broadcastSend_fields (st : SupState) (m : TaskMessage) :
    (broadcastSend st m).refCount = st.refCount ∧
    (broadcastSend st m).cancelToken = st.cancelToken ∧
    (broadcastSend st m).pending = st.pending ∧
    (broadcastSend st m).tasks = st.tasks ∧
    (broadcastSend st m).cancelled = st.cancelled := by
  unfold broadcastSend
  split <;> exact ⟨rfl, rfl, rfl, rfl, rfl⟩

/-- A subscribe locked section always increments the count by one. -/
theorem subscribeLock_refCount (cmd : List String) (st : SupState) :
    ((subscribeLock cmd st).1).refCount = st.refCount + 1 := by
  by_cases hc : st.refCount = 0 ∧ st.cancelToken = none
  · rw [subscribeLock_pos cmd st hc.1 hc.2]
  · rw [subscribeLock_neg cmd st hc]

/-- Resolving a decided spawn never changes the subscriber count. -/
theorem spawnResolve_refCount (t : Nat) (osOk : Bool) (st : SupState) :
    (spawnResolve t osOk st).refCount = st.refCount := by
  unfold spawnResolve
  split
  · rfl
  · dsimp only
    split
    · rfl
    · exact (broadcastSend_fields _ _).1

/-- A forwarding-task exit never changes the subscriber count. -/
theorem taskExit_refCount (t : Nat) (r : ExitReason) (st : SupState) :
    (taskExit t r st).refCount = st.refCount := by
  unfold taskExit
  split
  · cases r with
    | killed => rfl
    | eofExit => exact (broadcastSend_fields _ _).1
    | readErr => exact (broadcastSend_fields _ _).1
  · rfl

/-- Case analysis of an unsubscribe call: the zero-count warning branch,
the last-unsubscriber branch with a token to cancel, the last-unsubscriber
branch with no token, and the plain decrement branch. -/
theorem unsubscribe_cases (st : SupState) :
    (st.refCount = 0 ∧
      unsubscribe st = { st with unsubZeroWarns := st.unsubZeroWarns + 1 }) ∨
    (st.refCount ≠ 0 ∧ st.refCount - 1 = 0 ∧
      ∃ t, st.cancelToken = some t ∧
        unsubscribe st = { st with refCount := st.refCount - 1,
                                   cancelToken := none,
                                   cancelled := st.cancelled ++ [t] }) ∨
    (st.refCount ≠ 0 ∧ st.refCount - 1 = 0 ∧ st.cancelToken = none ∧
      unsubscribe st = { st with refCount := st.refCount - 1 }) ∨
    (st.refCount ≠ 0 ∧ st.refCount - 1 ≠ 0 ∧
      unsubscribe st = { st with refCount := st.refCount - 1 }) := by
  unfold unsubscribe
  split
  next h0 => exact Or.inl ⟨h0, rfl⟩
  next h0 =>
    dsimp only
    split
    next hz =>
      split
      next t hct => exact Or.inr (Or.inl ⟨h0, hz, t, hct, rfl⟩)
      next hct => exact Or.inr (Or.inr (Or.inl ⟨h0, hz, hct, rfl⟩))
    next hz => exact Or.inr (Or.inr (Or.inr ⟨h0, hz, rfl⟩))

/-- An unsubscribe call never drives a nonnegative count negative. -/
theorem unsubscribe_refCount_nonneg (st : SupState) (h : 0 ≤ st.refCount) :
    0 ≤ (unsubscribe st).refCount := by
  rcases unsubscribe_cases st with ⟨h0, he⟩ | ⟨hne, hz, t, hct, he⟩ |
    ⟨hne, hz, hct, he⟩ | ⟨hne, hz, he⟩ <;> rw [he] <;> dsimp <;> omega

/-- Invariant: the subscriber count of every reachable supervisor state is
nonnegative — the guarded decrement of `unsubscribe` never underflows. -/
theorem reachable_refCount_nonneg (s : SupState) (h : Reachable s) :
    0 ≤ s.refCount := by
  induction h with
  | refl => decide
  | tail hab hstep ih =>
    rename_i b c
    cases hstep with
    | subLock cmd => rw [subscribeLock_refCount]; omega
    | spawn t osOk => rw [spawnResolve_refCount]; exact ih
    | recv => exact ih
    | unsub => exact unsubscribe_refCount_nonneg b ih
    | taskDone t r => rw [taskExit_refCount]; exact ih

/-- C4: calling unsubscribe with the count already 0 logs the warning (the
warn counter grows, so the call is reported, not silently ignored), does
not underflow, and leaves the count unchanged at 0 with every other field
untouched; and over every reachable interleaving of subscribe and
unsubscribe steps the subscriber count never becomes negative. -/
theorem c4_unsubscribe_zero_safe (st s : SupState)
    (h0 : st.refCount = 0) (hr : Reachable s) :
    unsubscribe st = { st with unsubZeroWarns := st.unsubZeroWarns + 1 } ∧
    (unsubscribe st).refCount = 0 ∧ 0 ≤ s.refCount := by
  have he : unsubscribe st
      = { st with unsubZeroWarns := st.unsubZeroWarns + 1 } := by
    rcases unsubscribe_cases st with ⟨_, he⟩ | ⟨hne, _⟩ | ⟨hne, _⟩ | ⟨hne, _⟩
    · exact he
    · exact absurd h0 hne
    · exact absurd h0 hne
    · exact absurd h0 hne
  refine ⟨he, ?_, reachable_refCount_nonneg s hr⟩
  rw [he]
  exact h0

/-- C4, witnessed at the fresh state and the reachable trace state s4. -/
theorem c4_unsubscribe_zero_safe_witness :
    unsubscribe initState
      = { initState with unsubZeroWarns := initState.unsubZeroWarns + 1 } ∧
    (unsubscribe initState).refCount = 0 ∧ 0 ≤ s4.refCount :=
  c4_unsubscribe_zero_safe initState s4 (by decide) reach_s4

/-- Case analysis of a decided spawn resolving: no matching decision (the
step does nothing), successful spawn, or failed spawn with broadcast and
token rollback. -/
theorem spawnResolve_cases (t : Nat) (osOk : Bool) (st : SupState) :
    (spawnResolve t osOk st = st) ∨
    (∃ p, st.pending.find? (fun q => q.token == t) = some p ∧
      spawnResolve t osOk st =
        { st with pending := st.pending.filter (fun q => q.token != t),
                  tasks := st.tasks ++ [t] }) ∨
    (spawnResolve t osOk st).cancelToken = none := by
  unfold spawnResolve
  split
  · exact Or.inl rfl
  next p hf =>
    dsimp only
    split
    · exact Or.inr (Or.inl ⟨p, hf, rfl⟩)
    · exact Or.inr (Or.inr rfl)

/-- A forwarding-task exit either clears the stored token or does nothing
at all (when no live task of that token exists, or a kill is attempted on
a token never cancelled). -/
theorem taskExit_cases (t : Nat) (r : ExitReason) (st : SupState) :
    (taskExit t r st).cancelToken = none ∨ taskExit t r st = st := by
  unfold taskExit
  split
  · exact Or.inl rfl
  · exact Or.inr rfl

/-- C8: counterexample.  The claimed invariant "a cancellation token is
stored iff a child process is running" fails on the code: in the reachable
state s4 — one subscribe spawned the process of token 0, then the lone
unsubscribe took and cancelled the token — the forwarding task of token 0
and its child process are still live (the kill has not yet happened) while
no token is stored. -/
theorem c8_counterexample :
    Reachable s4 ∧ s4.cancelToken = none ∧ s4.tasks = [0] :=
  ⟨reach_s4, by decide, by decide⟩

/-- C8 (amended): one direction survives — in every reachable state, a
stored cancellation token belongs to a live forwarding task (a running
child process) or to a spawn decided but not yet executed.  The converse
direction is refuted by the counterexample: a process can still be running
with no token stored, after a last-unsubscribe takes and cancels the token
and before the forwarding task kills the process (or after the stale
cleanup of an old task removes the fresh token). -/
theorem c8_amended (s : SupState) (h : Reachable s) (t : Nat)
    (ht : s.cancelToken = some t) :
    t ∈ s.tasks ∨ t ∈ s.pending.map PendingSpawn.token := by
  induction h generalizing t with
  | refl => rw [show initState.cancelToken = none from rfl] at ht; cases ht
  | tail hab hstep ih =>
    rename_i b c
    cases hstep with
    | subLock cmd =>
      by_cases hc : b.refCount = 0 ∧ b.cancelToken = none
      · rw [subscribeLock_pos cmd b hc.1 hc.2] at ht ⊢
        dsimp at ht ⊢
        cases ht
        right
        simp
      · rw [subscribeLock_neg cmd b hc] at ht ⊢
        dsimp at ht ⊢
        exact ih t ht
    | spawn t2 osOk =>
      rcases spawnResolve_cases t2 osOk b with he | ⟨p, hf, he⟩ | hnone
      · rw [he] at ht ⊢
        exact ih t ht
      · rw [he] at ht ⊢
        dsimp at ht ⊢
        rcases ih t ht with hmem | hmem
        · exact Or.inl (List.mem_append_left _ hmem)
        · by_cases htt : t = t2
          · subst htt
            exact Or.inl (List.mem_append_right _ (by simp))
          · right
            rcases List.mem_map.mp hmem with ⟨p2, hp2, hpt⟩
            exact List.mem_map.mpr
              ⟨p2, List.mem_filter.mpr ⟨hp2, by simp [hpt, htt]⟩, hpt⟩
      · rw [hnone] at ht
        cases ht
    | recv => exact ih t ht
    | unsub =>
      rcases unsubscribe_cases b with ⟨h0, he⟩ | ⟨hne, hz, t2, hct, he⟩ |
        ⟨hne, hz, hct, he⟩ | ⟨hne, hz, he⟩
      · rw [he] at ht ⊢
        dsimp at ht ⊢
        exact ih t ht
      · rw [he] at ht
        dsimp at ht
        cases ht
      · rw [he] at ht ⊢
        dsimp at ht ⊢
        exact ih t ht
      · rw [he] at ht ⊢
        dsimp at ht ⊢
        exact ih t ht
    | taskDone t2 r =>
      rcases taskExit_cases t2 r b with hnone | he
      · rw [hnone] at ht
        cases ht
      · rw [he] at ht ⊢
        exact ih t ht

/-- C8 amended, witnessed at the reachable trace state s5, where token 1 is
stored and its spawn is still pending. -/
theorem c8_amended_witness :
    1 ∈ s5.tasks ∨ 1 ∈ s5.pending.map PendingSpawn.token :=
  c8_amended s5 reach_s5 1 (by decide)

/-- A subscribe call that observes a first-subscriber transition with no
stored token attempts the spawn within the call. -/
theorem subscribe_attempt_pos (cmd : List String) (osOk : Bool)
    (st : SupState) (h0 : st.refCount = 0) (hn : st.cancelToken = none) :
    (subscribe cmd osOk st).2.2 = true := by
  unfold subscribe
  rw [subscribeLock_pos cmd st h0 hn]

/-- A subscribe call with positive pre-increment count only increments the
count and adds a receiver: no spawn is attempted. -/
theorem subscribe_no_spawn (cmd : List String) (osOk : Bool) (st : SupState)
    (h : 0 < st.refCount) :
    subscribe cmd osOk st =
      ({ st with refCount := st.refCount + 1,
                 receivers := st.receivers + 1 },
        st.sent.length, false) := by
  unfold subscribe
  rw [subscribeLock_neg cmd st (fun hc => absurd hc.1 (by omega))]
  rfl

/-- C5: whenever unsubscribe moves the count from 1 to 0 with a token
stored, that token is cancelled (and removed) in that call; whenever
subscribe moves the count from 0 to 1 with no token stored, the fresh
token is installed and a spawn is attempted in that call; a subscribe with
positive pre-increment count attempts no spawn and leaves process, token
and decision state untouched. -/
theorem c5_transitions (st : SupState) (t : Nat) (cmd : List String)
    (osOk : Bool) :
    (st.refCount = 1 → st.cancelToken = some t →
      (unsubscribe st).cancelToken = none ∧ t ∈ (unsubscribe st).cancelled) ∧
    (st.refCount = 0 → st.cancelToken = none →
      ((subscribeLock cmd st).1).cancelToken = some st.nextToken ∧
      (subscribe cmd osOk st).2.2 = true) ∧
    (0 < st.refCount →
      (subscribe cmd osOk st).2.2 = false ∧
      ((subscribe cmd osOk st).1).tasks = st.tasks ∧
      ((subscribe cmd osOk st).1).cancelToken = st.cancelToken ∧
      ((subscribe cmd osOk st).1).pending = st.pending) := by
  refine ⟨?_, ?_, ?_⟩
  · intro h1 hct
    rcases unsubscribe_cases st with ⟨h0, he⟩ | ⟨hne, hz, t2, hct2, he⟩ |
      ⟨hne, hz, hct2, he⟩ | ⟨hne, hz, he⟩
    · omega
    · rw [hct] at hct2
      cases hct2
      rw [he]
      exact ⟨rfl, by simp⟩
    · rw [hct2] at hct
      cases hct
    · omega
  · intro h0 hn
    constructor
    · rw [subscribeLock_pos cmd st h0 hn]
    · exact subscribe_attempt_pos cmd osOk st h0 hn
  · intro hpos
    rw [subscribe_no_spawn cmd osOk st hpos]
    exact ⟨rfl, rfl, rfl, rfl⟩

/-- C5, witnessed at the trace state s3 (count 1, token 0 stored) and at
the fresh state. -/
theorem c5_transitions_witness :
    ((unsubscribe s3).cancelToken = none ∧ 0 ∈ (unsubscribe s3).cancelled) ∧
    (((subscribeLock demoCmd initState).1).cancelToken
        = some initState.nextToken ∧
      (subscribe demoCmd true initState).2.2 = true) ∧
    ((subscribe demoCmd true s3).2.2 = false ∧
      ((subscribe demoCmd true s3).1).tasks = s3.tasks ∧
      ((subscribe demoCmd true s3).1).cancelToken = s3.cancelToken ∧
      ((subscribe demoCmd true s3).1).pending = s3.pending) :=
  ⟨(c5_transitions s3 0 demoCmd true).1 (by decide) (by decide),
   (c5_transitions initState 0 demoCmd true).2.1 (by decide) (by decide),
   (c5_transitions s3 0 demoCmd true).2.2 (by decide)⟩

/-- C9: spawn_process rejects the empty command with an error before
`cmd[0]` is ever read — a successful spawn proves the command was
non-empty, with `cmd[0]` the program and the remainder the arguments — and
an empty command surfaced through the subscribe spawn-failure path leaves
no process and a rolled-back token. -/
theorem c9_empty_command (osOk : Bool) (cmd : List String)
    (child : SpawnedChild) (h : spawn_process cmd osOk = Except.ok child) :
    spawn_process [] osOk
      = Except.error ("spawn_process called with empty cmd, skipping spawn.") ∧
    (∃ hne : cmd ≠ [], child.program = cmd.head hne ∧ child.args = cmd.tail) ∧
    (subscribe [] osOk initState).1.cancelToken = none ∧
    (subscribe [] osOk initState).1.tasks = [] := by
  refine ⟨rfl, ?_, ?_, ?_⟩
  · unfold spawn_process at h
    split at h
    · cases h
    next hne =>
      dsimp only at h
      split at h
      · cases h
        exact ⟨hne, rfl, rfl⟩
      · cases h
  · rfl
  · rfl

/-- C9, witnessed with the spec's example command. -/
theorem c9_empty_command_witness :
    spawn_process [] true
      = Except.error ("spawn_process called with empty cmd, skipping spawn.") ∧
    (∃ hne : demoCmd ≠ [],
      (SpawnedChild.mk ("mon") (["-i", "eth0", "-live"])).program
          = demoCmd.head hne ∧
      (SpawnedChild.mk ("mon") (["-i", "eth0", "-live"])).args
          = demoCmd.tail) ∧
    (subscribe [] true initState).1.cancelToken = none ∧
    (subscribe [] true initState).1.tasks = [] :=
  c9_empty_command true demoCmd (SpawnedChild.mk ("mon") (["-i", "eth0", "-live"])) rfl

/-- C10: on every exit path it takes, the forwarding task's final cleanup
sets the stored token to `None` unconditionally, without comparing it with
the token the task was spawned with; consequently, on the concrete trace
where the last unsubscribe cancelled token 0 and a new subscribe then
installed fresh token 1 and spawned its process, the exit of the old task
0 removes token 1 from the state while the process of token 1 is still
running. -/
theorem c10_stale_cleanup (st : SupState) (t : Nat) (r : ExitReason)
    (h1 : t ∈ st.tasks) (h2 : r = ExitReason.killed → t ∈ st.cancelled) :
    (taskExit t r st).cancelToken = none ∧
    (Reachable s7 ∧ s6.cancelToken = some 1 ∧ 1 ∈ s6.tasks ∧
      s7 = taskExit 0 ExitReason.killed s6 ∧
      s7.cancelToken = none ∧ 1 ∈ s7.tasks) := by
  constructor
  · unfold taskExit
    rw [if_pos ⟨h1, h2⟩]
  · exact ⟨reach_s7, by decide, by decide, rfl, by decide, by decide⟩

/-- C10, witnessed at the trace state s6 with the exit of cancelled
task 0. -/
theorem c10_stale_cleanup_witness :
    (taskExit 0 ExitReason.killed s6).cancelToken = none ∧
    (Reachable s7 ∧ s6.cancelToken = some 1 ∧ 1 ∈ s6.tasks ∧
      s7 = taskExit 0 ExitReason.killed s6 ∧
      s7.cancelToken = none ∧ 1 ∈ s7.tasks) :=
  c10_stale_cleanup s6 0 ExitReason.killed (by decide) (fun _ => by decide)

/-- C7: the message type really exchanged between supervisor and
subscribers (the TaskMessage enum of task_handle.rs) offers exactly three
alternatives — Data, Error and Eof; there is no Comment alternative, even
though the stream adapter of vnstat_service.rs matches on one. -/
theorem c7_three_variants (m : TaskMessage) :
    (∃ s, m = TaskMessage.Data s) ∨ (∃ s, m = TaskMessage.Error s) ∨
    m = TaskMessage.Eof := by
  cases m with
  | Data s => exact Or.inl ⟨s, rfl⟩
  | Error s => exact Or.inr (Or.inl ⟨s, rfl⟩)
  | Eof => exact Or.inr (Or.inr rfl)

/-- Message alternatives as the stream adapter's match in vnstat_service.rs
lines 87-92 is written: arms for Data, Comment, Error and Eof — one more
alternative than the TaskMessage enum it matches on actually declares. -/
inductive AdapterMessage where
  | data (line : String)
  | comment (text : String)
  | error (text : String)
  | eof
  deriving DecidableEq

/-- Result of one `receiver.recv().await` in the adapter loop
(vnstat_service.rs lines 86-98): a message, a closed channel, or a lag
report carrying the number of dropped messages. -/
inductive RecvItem where
  | ok (m : AdapterMessage)
  | closed
  | lagged (n : Nat)
  deriving DecidableEq

/-- Wire events the adapter yields: a data event carrying the payload with
an id stamped with the current time in milliseconds, or a comment event. -/
inductive SseEvent where
  | dataEvent (payload : String) (id : Nat)
  | commentEvent (text : String)
  deriving DecidableEq

/-- The adapter loop of stream_interface_live_stats (vnstat_service.rs
lines 82-100) run over a list of received items, `ts` supplying the
current time for each data event: Data yields a data event stamped with
the head of `ts`; Comment yields a comment event; Error yields an
error-typed stream item and the loop continues to the next recv; Eof and a
closed channel break the loop; a lag report yields the
"Message dropped (lag)" comment and continues. -/
def adapterRun : List Nat → List RecvItem → List (Except String SseEvent)
  | _, [] => []
  | ts, RecvItem.ok (AdapterMessage.data d) :: rest =>
    Except.ok (SseEvent.dataEvent d (ts.headD 0)) :: adapterRun ts.tail rest
  | ts, RecvItem.ok (AdapterMessage.comment c) :: rest =>
    Except.ok (SseEvent.commentEvent c) :: adapterRun ts rest
  | ts, RecvItem.ok (AdapterMessage.error e) :: rest =>
    Except.error e :: adapterRun ts rest
  | _, RecvItem.ok AdapterMessage.eof :: _ => []
  | _, RecvItem.closed :: _ => []
  | ts, RecvItem.lagged _ :: rest =>
    Except.ok (SseEvent.commentEvent ("Message dropped (lag)"))
      :: adapterRun ts rest

/-- Received items on which the adapter loop breaks: Eof and the
closed-channel report. -/
def isTerminator : RecvItem → Bool
  | RecvItem.ok AdapterMessage.eof => true
  | RecvItem.closed => true
  | _ => false

/-- Over inputs containing no Eof and no closed-channel report, the
adapter emits exactly one stream item per received item: neither an error
message nor a lag report stops it. -/
theorem adapterRun_length (items : List RecvItem) :
    ∀ ts, (∀ i ∈ items, isTerminator i = false) →
      (adapterRun ts items).length = items.length := by
  induction items with
  | nil => intro ts h; rfl
  | cons i rest ih =>
    intro ts h
    have hrest : ∀ j ∈ rest, isTerminator j = false :=
      fun j hj => h j (List.mem_cons_of_mem _ hj)
    cases i with
    | ok m =>
      cases m with
      | data d => simp [adapterRun, ih ts.tail hrest]
      | comment c => simp [adapterRun, ih ts hrest]
      | error e => simp [adapterRun, ih ts hrest]
      | eof =>
        have hti := h _ (List.mem_cons_self _ _)
        simp [isTerminator] at hti
    | closed =>
      have hti := h _ (List.mem_cons_self _ _)
      simp [isTerminator] at hti
    | lagged n => simp [adapterRun, ih ts hrest]

/-- C6: counterexample.  The claim that an Error message terminates the
adapter's stream fails on the code: the adapter yields the error as a
stream item but its loop does not break, so a Data message arriving after
an Error is still translated and emitted by the same stream. -/
theorem c6_counterexample :
    adapterRun [5]
        [RecvItem.ok (AdapterMessage.error ("boom")),
         RecvItem.ok (AdapterMessage.data ("payload")),
         RecvItem.ok AdapterMessage.eof]
      = [Except.error ("boom"),
         Except.ok (SseEvent.dataEvent ("payload") 5)] := rfl

/-- C6 (amended): for every message received by the adapter, Data yields a
data event stamped with the current time, Comment yields a comment event,
Eof terminates the stream cleanly, a closed channel terminates it cleanly,
and a lag report does not fail the stream — one "Message dropped (lag)"
comment is emitted and receiving continues; an Error yields an error-typed
item on the stream but does not terminate the adapter's loop, which keeps
translating subsequent messages (over terminator-free input the adapter
emits exactly one item per received item). -/
theorem c6_adapter_translation (ts : List Nat) (d c e : String) (n : Nat)
    (rest items : List RecvItem)
    (hnt : ∀ i ∈ items, isTerminator i = false) :
    adapterRun ts (RecvItem.ok (AdapterMessage.data d) :: rest)
      = Except.ok (SseEvent.dataEvent d (ts.headD 0))
          :: adapterRun ts.tail rest ∧
    adapterRun ts (RecvItem.ok (AdapterMessage.comment c) :: rest)
      = Except.ok (SseEvent.commentEvent c) :: adapterRun ts rest ∧
    adapterRun ts (RecvItem.ok (AdapterMessage.error e) :: rest)
      = Except.error e :: adapterRun ts rest ∧
    adapterRun ts (RecvItem.ok AdapterMessage.eof :: rest) = [] ∧
    adapterRun ts (RecvItem.closed :: rest) = [] ∧
    adapterRun ts (RecvItem.lagged n :: rest)
      = Except.ok (SseEvent.commentEvent ("Message dropped (lag)"))
          :: adapterRun ts rest ∧
    (adapterRun ts items).length = items.length :=
  ⟨rfl, rfl, rfl, rfl, rfl, rfl, adapterRun_length items ts hnt⟩

/-- C6 amended, witnessed on a concrete lagged-then-data input. -/
theorem c6_adapter_translation_witness :
    adapterRun [7] (RecvItem.ok (AdapterMessage.data ("a")) :: [])
      = Except.ok (SseEvent.dataEvent ("a") (([7] : List Nat).headD 0))
          :: adapterRun ([7] : List Nat).tail [] ∧
    adapterRun [7] (RecvItem.ok (AdapterMessage.comment ("b")) :: [])
      = Except.ok (SseEvent.commentEvent ("b")) :: adapterRun [7] [] ∧
    adapterRun [7] (RecvItem.ok (AdapterMessage.error ("c")) :: [])
      = Except.error ("c") :: adapterRun [7] [] ∧
    adapterRun [7] (RecvItem.ok AdapterMessage.eof :: []) = [] ∧
    adapterRun [7] (RecvItem.closed :: []) = [] ∧
    adapterRun [7] (RecvItem.lagged 3 :: [])
      = Except.ok (SseEvent.commentEvent ("Message dropped (lag)"))
          :: adapterRun [7] [] ∧
    (adapterRun [7]
        [RecvItem.lagged 3, RecvItem.ok (AdapterMessage.data ("a"))]).length
      = ([RecvItem.lagged 3,
          RecvItem.ok (AdapterMessage.data ("a"))] : List RecvItem).length :=
  c6_adapter_translation [7] ("a") ("b") ("c") 3 []
    [RecvItem.lagged 3, RecvItem.ok (AdapterMessage.data ("a"))] (by decide)

/-- Registry from task_manager.rs: the map from task keys to supervisors
(the DashMap field of TaskManager). -/
structure TaskManager where
  tasks : List (String × SupState)
  deriving DecidableEq

/-- TaskManager::unsubscribe (task_manager.rs lines 47-54): look up the
key and run that supervisor's unsubscribe; a missing key only logs a
warning and changes nothing. -/
def managerUnsubscribe (key : String) (m : TaskManager) : TaskManager :=
  match m.tasks.find? (fun kv => kv.1 == key) with
  | some _ =>
    ⟨m.tasks.map (fun kv => if kv.1 == key then (kv.1, unsubscribe kv.2) else kv)⟩
  | none => m

/-- TaskDropGuard (task_handle.rs lines 197-221): `cleanup` holds the
one-shot closure — modelled by its captured task key, the weak registry
reference being resolved at fire time — and is `none` once taken. -/
structure TaskDropGuard where
  cleanup : Option String
  deriving DecidableEq

/-- Drop of a TaskDropGuard (task_handle.rs lines 214-221) combined with
the cleanup closure built by TaskManager::get_drop_guard (task_manager.rs
lines 57-67): `Option::take` fires the closure at most once; the closure
upgrades the weak registry reference (`upgraded` is the upgrade result,
`none` when the registry has been dropped) and unsubscribes the captured
key, a failed upgrade doing nothing.  Returns the registry after the
drop, whether the cleanup fired, and the guard as the drop leaves it. -/
def dropGuard (g : TaskDropGuard) (upgraded : Option TaskManager) :
    Option TaskManager × Bool × TaskDropGuard :=
  match g.cleanup with
  | some key => (upgraded.map (managerUnsubscribe key), true, ⟨none⟩)
  | none => (upgraded, false, g)

/-- C3: the release guard fires its cleanup exactly once over its
lifetime: the first drop fires it — with the registry alive the fire
performs exactly the registry unsubscribe for the captured key — and
consumes the closure; any further drop of the consumed guard fires
nothing and changes nothing; and a fire after the registry itself has
been dropped (failed weak upgrade) is a no-op. -/
theorem c3_guard_fires_once (key : String) (m : TaskManager)
    (up1 up2 : Option TaskManager) :
    (dropGuard ⟨some key⟩ up1).2.1 = true ∧
    ((dropGuard ⟨some key⟩ up1).2.2).cleanup = none ∧
    (dropGuard (dropGuard ⟨some key⟩ up1).2.2 up2).2.1 = false ∧
    (dropGuard (dropGuard ⟨some key⟩ up1).2.2 up2).1 = up2 ∧
    (dropGuard ⟨some key⟩ (some m)).1 = some (managerUnsubscribe key m) ∧
    (dropGuard ⟨some key⟩ none).1 = none :=
  ⟨rfl, rfl, rfl, rfl, rfl, rfl⟩

end VnstatApi
